import Mathlib

/-
Shallow embedding of the hospital-backend service (src/main.py, src/schemas.py):
credential hashing, bearer-token issuance and verification, the auth
middleware, and the domain operations with side effects (signup, login,
dispense, lab-result upload), over an explicit document-store state.
-/

namespace Hospital

/-- MongoDB object identifiers, as produced by the bson driver: a 24-character
hexadecimal value.  `hex` holds the canonical (lowercase) string rendering,
which is what `str(ObjectId)` returns in the source. -/
structure MongoOid where
  hex : String
deriving DecidableEq, Repr

/-- True for the characters accepted inside a 24-character ObjectId string. -/
def isHexChar (c : Char) : Bool :=
  c.isDigit || (('a' ≤ c) && (c ≤ 'f')) || (('A' ≤ c) && (c ≤ 'F'))

/-- Character-by-character lowercasing (what `str.lower` does on the ASCII
hex strings at hand), written over the character list so it evaluates by
kernel reduction. -/
def lowerStr (s : String) : String := ⟨s.data.map Char.toLower⟩

/-- Models the `bson.ObjectId(s)` constructor: it succeeds exactly on
24-character hex strings (case-insensitively, normalising to lowercase) and
raises `InvalidId` otherwise, which we render as `none`. -/
def objectIdOfString (s : String) : Option MongoOid :=
  if s.length = 24 && s.toList.all isHexChar then some ⟨lowerStr s⟩ else none

/-- Password hashes as stored by passlib's bcrypt context.  A well-formed
bcrypt hash verifies exactly its own plaintext; any malformed or foreign
string makes `CryptContext.verify` raise. -/
inductive Hash where
  | bcrypt (plaintext : String)
  | foreign (raw : String)
deriving DecidableEq, Repr

/-- Models the external `pwd_context.verify` (passlib): returns whether the
plaintext matches a well-formed bcrypt hash, raises (here `Except.error`) on a
malformed or foreign hash. -/
def pwd_context_verify (plain : String) (h : Hash) : Except Unit Bool :=
  match h with
  | .bcrypt p => .ok (p == plain)
  | .foreign _ => .error ()

/-- Source `verify_password` (src/main.py:52-56): wraps `pwd_context.verify`
in try/except, returning `False` on any internal error. -/
def verify_password (plain_password : String) (hashed_password : Hash) : Bool :=
  match pwd_context_verify plain_password hashed_password with
  | .ok b => b
  | .error _ => false

/-- Source `get_password_hash` (src/main.py:59-60): `pwd_context.hash`
always yields a well-formed bcrypt hash of its input. -/
def get_password_hash (password : String) : Hash :=
  Hash.bcrypt password

/-- Source `SECRET_KEY` (src/main.py:38): environment value with the insecure
default; modelled as the default since only key (in)equality matters. -/
def SECRET_KEY : String := "change_this_secret"

/-- Source `ACCESS_TOKEN_EXPIRE_MINUTES` (src/main.py:40). -/
def ACCESS_TOKEN_EXPIRE_MINUTES : Int := 60 * 8

/-- JWT claim set carried by the tokens this service issues and verifies:
`sub`, `role`, and the registered expiry claim `exp` in seconds since epoch
(PyJWT compares it against integer wall-clock seconds). -/
structure Claims where
  sub : Option String
  role : Option String
  exp : Option Int
deriving DecidableEq, Repr

/-- A compact JWT as seen by `jwt.decode`: either a malformed string, or a
well-formed token whose payload is `claims` and whose signature was produced
with symmetric key `key` (tamper-evident: altering the payload or signing with
another key is a different `signed` value or a `malformed` one). -/
inductive Jwt where
  | malformed (raw : String)
  | signed (claims : Claims) (key : String)
deriving DecidableEq, Repr

/-- Errors PyJWT raises from `jwt.decode`; all extend `PyJWTError`. -/
inductive JwtError where
  | decodeError
  | invalidSignature
  | expiredSignature
deriving DecidableEq, Repr

/-- Models the external `jwt.decode(token, key, algorithms=[HS256])` (PyJWT):
fails on a malformed token, then on a bad signature, then on an `exp` claim
not in the future (PyJWT raises `ExpiredSignatureError` when
`exp <= now`); otherwise returns the payload. -/
def jwt_decode (tok : Jwt) (key : String) (now : Int) : Except JwtError Claims :=
  match tok with
  | .malformed _ => .error .decodeError
  | .signed c k =>
    if k = key then
      match c.exp with
      | some e => if e ≤ now then .error .expiredSignature else .ok c
      | none => .ok c
    else .error .invalidSignature

/-- The claim data passed to `create_access_token` (`{"sub": ..., "role": ...}`). -/
structure TokenData where
  sub : Option String
  role : Option String
deriving DecidableEq, Repr

/-- Source `create_access_token` (src/main.py:63-68): copies the data, adds
`exp = now + (expires_delta or 8 hours)` and signs with `SECRET_KEY`.
`now` is the issue instant and `expires_delta` the optional TTL, both in
seconds. -/
def create_access_token (data : TokenData) (now : Int) (expires_delta : Option Int) : Jwt :=
  let expire := now + (expires_delta.getD (ACCESS_TOKEN_EXPIRE_MINUTES * 60))
  Jwt.signed { sub := data.sub, role := data.role, exp := some expire } SECRET_KEY

/-- FastAPI's `HTTPException` (status code and detail message). -/
structure HTTPException where
  status_code : Nat
  detail : String
deriving DecidableEq, Repr

/-- A document of the `user` collection as inserted by signup
(src/main.py:109-118); `_id` is the store-generated ObjectId.  Timestamps and
optional contact fields are not read by any specified operation and are
omitted. -/
structure StoredUser where
  _id : MongoOid
  role : String
  full_name : String
  email : String
  password_hash : Hash
  is_active : Bool
deriving DecidableEq, Repr

/-- The user document as returned by the auth middleware after
`user["_id"] = str(user["_id"])`: same fields, id a plain string. -/
structure CurrentUser where
  _id : String
  role : String
  full_name : String
  email : String
  password_hash : Hash
  is_active : Bool
deriving DecidableEq, Repr

/-- The serialization step `user["_id"] = str(user["_id"])` of
src/main.py:90. -/
def serializeUser (u : StoredUser) : CurrentUser :=
  { _id := u._id.hex, role := u.role, full_name := u.full_name,
    email := u.email, password_hash := u.password_hash, is_active := u.is_active }

/-- Models `db["user"].find_one({"_id": ObjectId(user_id)})` wrapped in the
try/except of src/main.py:84-87: a malformed id string or an id matching no
document resolves to `none`. -/
def findUserByIdStr (users : List StoredUser) (s : String) : Option StoredUser :=
  match objectIdOfString s with
  | none => none
  | some oid => users.find? (fun u => u._id == oid)

/-- Source `get_current_user` (src/main.py:71-91), the auth middleware.  The
`token` argument is `none` when the request carried no bearer credentials, in
which case FastAPI's `OAuth2PasswordBearer` rejects with 401 before the
function body runs.  `db` is `none` when the store is not configured.  An
`Except.error` return means the request never reaches the route handler. -/
def get_current_user (db : Option (List StoredUser)) (token : Option Jwt) (now : Int) :
    Except HTTPException CurrentUser :=
  match token with
  | none => .error ⟨401, "Not authenticated"⟩
  | some tok =>
    match jwt_decode tok SECRET_KEY now with
    | .error _ => .error ⟨401, "Could not validate credentials"⟩
    | .ok payload =>
      match payload.sub with
      | none => .error ⟨401, "Could not validate credentials"⟩
      | some user_id =>
        match db with
        | none => .error ⟨500, "Database not configured"⟩
        | some users =>
          match findUserByIdStr users user_id with
          | none => .error ⟨401, "Could not validate credentials"⟩
          | some user => .ok (serializeUser user)

/-- Signup request body (src/main.py:95-99).  Note the source types `role`
as a bare `str`; the `EmailStr` shape check is outside the modelled slice
(the inputs considered here are well-formed email strings). -/
structure SignupRequest where
  role : String
  full_name : String
  email : String
  password : String
deriving DecidableEq, Repr

/-- A document of the `patient` collection as inserted by signup
(src/main.py:122); only the two fields the source writes. -/
structure PatientDoc where
  user_id : String
  medical_record_number : String
deriving DecidableEq, Repr

/-- A document of the `doctor` collection as inserted by signup
(src/main.py:124). -/
structure DoctorDoc where
  user_id : String
  specialization : Option String
deriving DecidableEq, Repr

/-- A document of the `labtest` collection (schemas.LabTest plus the
store id). -/
structure LabTestDoc where
  _id : MongoOid
  patient_id : String
  ordered_by : String
  test_type : String
  status : String
  result_summary : Option String
  result_pdf_url : Option String
deriving DecidableEq, Repr

/-- A document of the `medicine` collection (schemas.Medicine plus the store
id).  `stock` is an unbounded integer: the `$inc` update may drive it
negative. -/
structure MedicineDoc where
  _id : MongoOid
  name : String
  stock : Int
  price : Float
  manufacturer : Option String
  expiry_date : Option String
deriving Repr

/-- One line item of a dispense request.  In the source the items are untyped
dicts; the handler reads `item.get("medicine_id")` (may be absent) and
`int(item.get("quantity", 0))`.  `price` is carried but never read. -/
structure DispenseItem where
  medicine_id : Option String
  quantity : Option Int
  price : Option Float
deriving Repr

/-- Dispense request body (schemas.Dispense); `paid` defaults to `false` in
the schema, so a payload that omits it carries `paid := false`. -/
structure DispensePayload where
  patient_id : String
  prescription_id : String
  items : List DispenseItem
  total : Float
  paid : Bool
deriving Repr

/-- A persisted document of the `dispense` collection: the validated payload
plus the store-generated id. -/
structure DispenseDoc where
  _id : MongoOid
  patient_id : String
  prescription_id : String
  items : List DispenseItem
  total : Float
  paid : Bool
deriving Repr

/-- The document store, one list per collection touched by the specified
operations (collections not read or written by them are omitted). -/
structure Store where
  user : List StoredUser
  patient : List PatientDoc
  doctor : List DoctorDoc
  labtest : List LabTestDoc
  medicine : List MedicineDoc
  dispense : List DispenseDoc
deriving Repr

/-- Python `uid[-6:]`: the last six characters (the whole string when it is
shorter). -/
def last6 (s : String) : String :=
  s.drop (s.length - 6)

/-- Source `signup` (src/main.py:102-126).  `newId` is the ObjectId the store
generates for the inserted user document; `uid = str(res.inserted_id)` is its
hex rendering.  Returns the HTTP outcome paired with the store after the
operation. -/
def signup (db : Option Store) (newId : MongoOid) (payload : SignupRequest) :
    Except HTTPException (String × String) × Option Store :=
  match db with
  | none => (.error ⟨500, "Database not configured"⟩, none)
  | some st =>
    if (st.user.find? (fun u => u.email == payload.email)).isSome then
      (.error ⟨400, "Email already registered"⟩, some st)
    else
      let hashed := get_password_hash payload.password
      let user_doc : StoredUser :=
        { _id := newId, role := payload.role, full_name := payload.full_name,
          email := payload.email, password_hash := hashed, is_active := true }
      let uid := newId.hex
      let st1 := { st with user := st.user ++ [user_doc] }
      let st2 :=
        if payload.role == "patient" then
          { st1 with patient := st1.patient ++
              [{ user_id := uid,
                 medical_record_number := "MRN-" ++ (last6 uid).toUpper }] }
        else st1
      let st3 :=
        if payload.role == "doctor" then
          { st2 with doctor := st2.doctor ++ [{ user_id := uid, specialization := none }] }
        else st2
      (.ok (uid, "Signup successful"), some st3)

/-- The `Token` response model (src/main.py:47-49). -/
structure TokenResponse where
  access_token : Jwt
  token_type : String
deriving DecidableEq, Repr

/-- Source `login` (src/main.py:129-137): look up the user by email
(`form_data.username`), reject with one and the same 400 when absent or when
the password fails to verify, otherwise issue a token for
`{"sub": str(user["_id"]), "role": user["role"]}` at instant `now`. -/
def login (db : Option (List StoredUser)) (username password : String) (now : Int) :
    Except HTTPException TokenResponse :=
  match db with
  | none => .error ⟨500, "Database not configured"⟩
  | some users =>
    match users.find? (fun u => u.email == username) with
    | none => .error ⟨400, "Incorrect email or password"⟩
    | some user =>
      if verify_password password user.password_hash then
        .ok { access_token :=
                create_access_token { sub := some user._id.hex, role := some user.role } now none,
              token_type := "bearer" }
      else .error ⟨400, "Incorrect email or password"⟩

/-- Mongo `update_one` with `$inc` on `stock`: decrement the first document
matching the id filter, leave the list unchanged when nothing matches. -/
def decStockFirst (meds : List MedicineDoc) (oid : MongoOid) (q : Int) : List MedicineDoc :=
  match meds with
  | [] => []
  | m :: rest =>
    if m._id == oid then { m with stock := m.stock - q } :: rest
    else m :: decStockFirst rest oid q

/-- One iteration of the dispense loop (src/main.py:288-292): build
`ObjectId(item.get("medicine_id"))` — any exception (absent id, malformed id)
is swallowed by the bare `except`, leaving the collection untouched — then
`$inc` stock by `-int(item.get("quantity", 0))` on the matching document. -/
def applyItem (meds : List MedicineDoc) (item : DispenseItem) : List MedicineDoc :=
  match item.medicine_id with
  | none => meds
  | some mid =>
    match objectIdOfString mid with
    | none => meds
    | some oid => decStockFirst meds oid (item.quantity.getD 0)

/-- Source `dispense` (src/main.py:283-293): insert the Dispense document
(with store-generated id `newId`), then fold the stock decrements over the
line items in order. -/
def dispense (db : Option Store) (newId : MongoOid) (d : DispensePayload) :
    Except HTTPException String × Option Store :=
  match db with
  | none => (.error ⟨500, "Database not configured"⟩, none)
  | some st =>
    let doc : DispenseDoc :=
      { _id := newId, patient_id := d.patient_id, prescription_id := d.prescription_id,
        items := d.items, total := d.total, paid := d.paid }
    let st1 := { st with dispense := st.dispense ++ [doc] }
    let meds := d.items.foldl applyItem st1.medicine
    (.ok newId.hex, some { st1 with medicine := meds })

/-- Mongo `update_one` with `$set {status: completed, result_pdf_url: url}`:
update the first document matching the id filter, no-op when none matches. -/
def setResultFirst (tests : List LabTestDoc) (oid : MongoOid) (url : String) : List LabTestDoc :=
  match tests with
  | [] => []
  | t :: rest =>
    if t._id == oid then
      { t with status := "completed", result_pdf_url := some url } :: rest
    else t :: setResultFirst rest oid url

/-- Source `upload_result` (src/main.py:249-254): one `update_one` setting
`status` and `result_pdf_url` together on the test matching
`ObjectId(test_id)`, then the fixed success message.  A malformed `test_id`
makes the uncaught `ObjectId` constructor raise, surfacing as a generic
500. -/
def upload_result (db : Option Store) (test_id : String) (filename : String) :
    Except HTTPException String × Option Store :=
  match db with
  | none => (.error ⟨500, "Database not configured"⟩, none)
  | some st =>
    match objectIdOfString test_id with
    | none => (.error ⟨500, "Internal Server Error"⟩, some st)
    | some oid =>
      let st1 := { st with labtest := setResultFirst st.labtest oid ("/files/" ++ filename) }
      (.ok "Result uploaded", some st1)

/-- The empty document store. -/
def emptyStore : Store :=
  { user := [], patient := [], doctor := [], labtest := [], medicine := [], dispense := [] }

/-- A sample store-generated ObjectId, used for concrete instantiations. -/
def sampleOid : MongoOid := ⟨"64b0c0ffee00112233445566"⟩

/- Helper lemmas about the store primitives. -/

theorem decStockFirst_of_not_mem (meds : List MedicineDoc) (oid : MongoOid) (q : Int)
    (h : ∀ m ∈ meds, m._id ≠ oid) : decStockFirst meds oid q = meds := by
  induction meds with
  | nil => rfl
  | cons m rest ih =>
    have hm : m._id ≠ oid := h m (List.mem_cons_self m rest)
    simp only [decStockFirst, beq_iff_eq, if_neg hm]
    rw [ih (fun x hx => h x (List.mem_cons_of_mem m hx))]

theorem decStockFirst_split (pre post : List MedicineDoc) (m : MedicineDoc)
    (oid : MongoOid) (q : Int) (hpre : ∀ x ∈ pre, x._id ≠ oid) (hm : m._id = oid) :
    decStockFirst (pre ++ m :: post) oid q =
      pre ++ { m with stock := m.stock - q } :: post := by
  induction pre with
  | nil => simp [decStockFirst, hm]
  | cons x rest ih =>
    have hx : x._id ≠ oid := hpre x (List.mem_cons_self x rest)
    simp only [List.cons_append, decStockFirst, beq_iff_eq, if_neg hx]
    exact congrArg (x :: ·) (ih (fun y hy => hpre y (List.mem_cons_of_mem x hy)))

theorem setResultFirst_of_not_mem (tests : List LabTestDoc) (oid : MongoOid) (url : String)
    (h : ∀ t ∈ tests, t._id ≠ oid) : setResultFirst tests oid url = tests := by
  induction tests with
  | nil => rfl
  | cons t rest ih =>
    have ht : t._id ≠ oid := h t (List.mem_cons_self t rest)
    simp only [setResultFirst, beq_iff_eq, if_neg ht]
    rw [ih (fun x hx => h x (List.mem_cons_of_mem t hx))]

theorem setResultFirst_split (pre post : List LabTestDoc) (t : LabTestDoc)
    (oid : MongoOid) (url : String) (hpre : ∀ x ∈ pre, x._id ≠ oid) (ht : t._id = oid) :
    setResultFirst (pre ++ t :: post) oid url =
      pre ++ { t with status := "completed", result_pdf_url := some url } :: post := by
  induction pre with
  | nil => simp [setResultFirst, ht]
  | cons x rest ih =>
    have hx : x._id ≠ oid := hpre x (List.mem_cons_self x rest)
    simp only [List.cons_append, setResultFirst, beq_iff_eq, if_neg hx]
    exact congrArg (x :: ·) (ih (fun y hy => hpre y (List.mem_cons_of_mem x hy)))

theorem find?_append_of_none {α : Type} (l1 l2 : List α) (p : α → Bool)
    (h : l1.find? p = none) : (l1 ++ l2).find? p = l2.find? p := by
  induction l1 with
  | nil => rfl
  | cons x rest ih =>
    cases hx : p x with
    | true =>
      rw [List.find?_cons_of_pos _ hx] at h
      exact Option.noConfusion h
    | false =>
      rw [List.find?_cons_of_neg _ (by simp [hx])] at h
      rw [List.cons_append, List.find?_cons_of_neg _ (by simp [hx])]
      exact ih h

/-- Characterization of a successful signup: with a fresh email, the user
document is appended, and the linked Patient/Doctor stub is appended exactly
when the role is the matching one. -/
theorem signup_of_fresh_email (st : Store) (newId : MongoOid) (p : SignupRequest)
    (h : st.user.find? (fun u => u.email == p.email) = none) :
    signup (some st) newId p =
      (.ok (newId.hex, "Signup successful"),
       some { user := st.user ++
                [{ _id := newId, role := p.role, full_name := p.full_name,
                   email := p.email, password_hash := get_password_hash p.password,
                   is_active := true }],
              patient :=
                if p.role == "patient" then
                  st.patient ++
                    [{ user_id := newId.hex,
                       medical_record_number := "MRN-" ++ (last6 newId.hex).toUpper }]
                else st.patient,
              doctor :=
                if p.role == "doctor" then
                  st.doctor ++ [{ user_id := newId.hex, specialization := none }]
                else st.doctor,
              labtest := st.labtest, medicine := st.medicine,
              dispense := st.dispense }) := by
  have hs : (st.user.find? (fun u => u.email == p.email)).isSome = false := by
    rw [h]; rfl
  cases hpat : (p.role == "patient") <;> cases hdoc : (p.role == "doctor") <;>
    simp [signup, hs, hpat, hdoc]

/-- Helper: verifying a freshly issued token before it expires returns its
claim set. -/
theorem jwt_decode_fresh (data : TokenData) (issue : Int) (delta : Option Int) (t : Int)
    (h : t < issue + delta.getD (ACCESS_TOKEN_EXPIRE_MINUTES * 60)) :
    jwt_decode (create_access_token data issue delta) SECRET_KEY t =
      .ok { sub := data.sub, role := data.role,
            exp := some (issue + delta.getD (ACCESS_TOKEN_EXPIRE_MINUTES * 60)) } := by
  simp [create_access_token, jwt_decode, not_le.mpr h]

/-- C2: a token issued by `create_access_token` at instant `issue` with TTL
`T = expires_delta.getD (8 hours)` is rejected as expired by `jwt_decode`
(with the correct key, untampered) at any instant strictly after
`issue + T`, and accepted — with its original claims — at any instant
strictly before `issue + T`. -/
theorem create_access_token_expiry (data : TokenData) (issue now : Int)
    (expires_delta : Option Int) :
    (issue + expires_delta.getD (ACCESS_TOKEN_EXPIRE_MINUTES * 60) < now →
      jwt_decode (create_access_token data issue expires_delta) SECRET_KEY now =
        .error JwtError.expiredSignature) ∧
    (now < issue + expires_delta.getD (ACCESS_TOKEN_EXPIRE_MINUTES * 60) →
      jwt_decode (create_access_token data issue expires_delta) SECRET_KEY now =
        .ok { sub := data.sub, role := data.role,
              exp := some (issue + expires_delta.getD (ACCESS_TOKEN_EXPIRE_MINUTES * 60)) }) := by
  constructor
  · intro h
    simp [create_access_token, jwt_decode, le_of_lt h]
  · intro h
    simp [create_access_token, jwt_decode, not_le.mpr h]

/-- Witness for C2 at issue instant 0 with the default 8-hour TTL: rejected
one second after expiry, accepted one second before. -/
theorem create_access_token_expiry_witness :
    jwt_decode (create_access_token ⟨some "u1", some "admin"⟩ 0 none) SECRET_KEY 28801 =
      .error JwtError.expiredSignature ∧
    jwt_decode (create_access_token ⟨some "u1", some "admin"⟩ 0 none) SECRET_KEY 28799 =
      .ok ⟨some "u1", some "admin", some 28800⟩ := by
  refine ⟨(create_access_token_expiry ⟨some "u1", some "admin"⟩ 0 28801 none).1 (by decide),
    ?_⟩
  have h := (create_access_token_expiry ⟨some "u1", some "admin"⟩ 0 28799 none).2 (by decide)
  rw [h]
  norm_num [ACCESS_TOKEN_EXPIRE_MINUTES]

/-- C8: `verify_password` is a total Boolean function (it wraps the
bcrypt verifier in try/except, so no exception propagates): it returns
`true` exactly when the plaintext matches the stored bcrypt hash, and
returns `false` — rather than raising — on a malformed or foreign hash. -/
theorem verify_password_no_throw (plain : String) (h : Hash) :
    (verify_password plain h = true ↔ h = Hash.bcrypt plain) ∧
    (∀ raw, h = Hash.foreign raw → verify_password plain h = false) := by
  cases h with
  | bcrypt p =>
    refine ⟨⟨fun hv => ?_, fun he => ?_⟩, by intro raw hr; cases hr⟩
    · have hp : p = plain := beq_iff_eq.mp hv
      rw [hp]
    · injection he with hp
      subst hp
      exact beq_self_eq_true _
  | foreign raw =>
    refine ⟨?_, fun _ _ => rfl⟩
    simp [verify_password, pwd_context_verify]

/-- Witness for C8: the hash of "secret123" verifies exactly that plaintext,
and a foreign (non-bcrypt) stored value verifies as false instead of
raising. -/
theorem verify_password_no_throw_witness :
    verify_password "secret123" (get_password_hash "secret123") = true ∧
    verify_password "secret123" (Hash.foreign "plain$md5") = false :=
  ⟨(verify_password_no_throw "secret123" (Hash.bcrypt "secret123")).1.mpr rfl,
   (verify_password_no_throw "secret123" (Hash.foreign "plain$md5")).2 "plain$md5" rfl⟩

/-- C9 (counterexample to the claimed role validation): `SignupRequest`
types `role` as a bare string and `signup` never checks it against the
enumerated role set of `schemas.User`, so a signup with role "superuser"
succeeds and inserts a user document carrying that role — no
`ValidationError` is raised before the write. -/
theorem signup_accepts_unknown_role :
    ∃ st' : Store,
      signup (some emptyStore) sampleOid
          { role := "superuser", full_name := "Eve Example",
            email := "eve@example.com", password := "pw123456" } =
        (.ok (sampleOid.hex, "Signup successful"), some st') ∧
      ∃ u ∈ st'.user, u.role = "superuser" := by
  refine ⟨{ emptyStore with
              user := [{ _id := sampleOid, role := "superuser", full_name := "Eve Example",
                         email := "eve@example.com",
                         password_hash := Hash.bcrypt "pw123456", is_active := true }] },
          ?_, ?_⟩
  · rfl
  · exact ⟨_, List.mem_singleton.mpr rfl, rfl⟩

/-- C3: login fails with the one 400 "Incorrect email or password" response —
never a 404 — exactly when no user carries the given email or the password
fails to verify against the stored hash; with a matching user and verifying
password it succeeds, returning a bearer token whose decoded claims carry
that user's id as `sub` and that user's role. -/
theorem login_spec (users : List StoredUser) (username password : String) (now : Int) :
    (login (some users) username password now =
        .error ⟨400, "Incorrect email or password"⟩ ↔
      (users.find? (fun u => u.email == username) = none ∨
        ∃ u, users.find? (fun u => u.email == username) = some u ∧
          verify_password password u.password_hash = false)) ∧
    (∀ u, users.find? (fun u => u.email == username) = some u →
      verify_password password u.password_hash = true →
      login (some users) username password now =
        .ok { access_token :=
                create_access_token { sub := some u._id.hex, role := some u.role } now none,
              token_type := "bearer" } ∧
      ∃ c, jwt_decode
              (create_access_token { sub := some u._id.hex, role := some u.role } now none)
              SECRET_KEY now = .ok c ∧
            c.sub = some u._id.hex ∧ c.role = some u.role) := by
  cases hfind : users.find? (fun u => u.email == username) with
  | none =>
    refine ⟨⟨fun _ => Or.inl rfl, fun _ => by simp [login, hfind]⟩, ?_⟩
    intro u hu
    exact Option.noConfusion hu
  | some w =>
    cases hv : verify_password password w.password_hash with
    | false =>
      refine ⟨⟨fun _ => Or.inr ⟨w, rfl, hv⟩, fun _ => by simp [login, hfind, hv]⟩, ?_⟩
      intro u hu hvt
      injection hu with hu
      subst hu
      rw [hv] at hvt
      exact Bool.noConfusion hvt
    | true =>
      constructor
      · constructor
        · intro hl
          simp [login, hfind, hv] at hl
        · rintro (hnone | ⟨u, hu, hvf⟩)
          · exact Option.noConfusion hnone
          · injection hu with hu
            subst hu
            rw [hv] at hvf
            exact Bool.noConfusion hvf
      · intro u hu hvt
        injection hu with hu
        subst hu
        refine ⟨by simp [login, hfind, hv], ?_⟩
        refine ⟨_, jwt_decode_fresh { sub := some w._id.hex, role := some w.role } now none now
          ?_, rfl, rfl⟩
        simp [ACCESS_TOKEN_EXPIRE_MINUTES]

/-- A concrete stored account for witnesses. -/
def sampleUser : StoredUser :=
  { _id := sampleOid, role := "admin", full_name := "Sam Example",
    email := "sam@example.com", password_hash := get_password_hash "pw123456",
    is_active := true }

/-- Witness for C3: the signed-up credentials log in and yield the expected
token; a wrong password yields the single 400 error. -/
theorem login_spec_witness :
    login (some [sampleUser]) "sam@example.com" "pw123456" 0 =
      .ok { access_token :=
              create_access_token { sub := some sampleOid.hex, role := some "admin" } 0 none,
            token_type := "bearer" } ∧
    login (some [sampleUser]) "sam@example.com" "wrongpw" 0 =
      .error ⟨400, "Incorrect email or password"⟩ := by
  constructor
  · exact ((login_spec [sampleUser] "sam@example.com" "pw123456" 0).2 sampleUser
      (by decide) (by decide)).1
  · exact (login_spec [sampleUser] "sam@example.com" "wrongpw" 0).1.mpr
      (Or.inr ⟨sampleUser, by decide, by decide⟩)

/-- C4: a signup whose email is already present in the user collection fails
with the 400 Conflict and leaves the store unchanged (no document inserted);
a signup with a fresh email succeeds, inserting exactly one user document,
after which the email is present — so any later signup with it conflicts. -/
theorem signup_email_uniqueness (st : Store) (newId : MongoOid) (p : SignupRequest) :
    ((st.user.find? (fun u => u.email == p.email)).isSome = true →
      signup (some st) newId p = (.error ⟨400, "Email already registered"⟩, some st)) ∧
    (st.user.find? (fun u => u.email == p.email) = none →
      ∃ st' : Store,
        signup (some st) newId p = (.ok (newId.hex, "Signup successful"), some st') ∧
        st'.user = st.user ++
          [{ _id := newId, role := p.role, full_name := p.full_name, email := p.email,
             password_hash := get_password_hash p.password, is_active := true }] ∧
        (st'.user.find? (fun u => u.email == p.email)).isSome = true) := by
  constructor
  · intro h
    simp [signup, h]
  · intro h
    refine ⟨_, signup_of_fresh_email st newId p h, rfl, ?_⟩
    rw [show (Store.user
        { user := st.user ++
            [{ _id := newId, role := p.role, full_name := p.full_name,
               email := p.email, password_hash := get_password_hash p.password,
               is_active := true }],
          patient := _, doctor := _, labtest := st.labtest, medicine := st.medicine,
          dispense := st.dispense }) = st.user ++
            [{ _id := newId, role := p.role, full_name := p.full_name,
               email := p.email, password_hash := get_password_hash p.password,
               is_active := true }] from rfl]
    rw [find?_append_of_none _ _ _ h]
    simp [List.find?]

/-- A concrete signup payload for witnesses. -/
def sampleSignup : SignupRequest :=
  { role := "admin", full_name := "Sam Example", email := "sam@example.com",
    password := "pw123456" }

/-- Witness for C4: signing up on an empty store succeeds; signing up against
a store already holding that email conflicts and changes nothing. -/
theorem signup_email_uniqueness_witness :
    (∃ st' : Store,
      signup (some emptyStore) sampleOid sampleSignup =
        (.ok (sampleOid.hex, "Signup successful"), some st') ∧
      st'.user = emptyStore.user ++
        [{ _id := sampleOid, role := sampleSignup.role, full_name := sampleSignup.full_name,
           email := sampleSignup.email,
           password_hash := get_password_hash sampleSignup.password, is_active := true }] ∧
      (st'.user.find? (fun u => u.email == sampleSignup.email)).isSome = true) ∧
    signup (some { emptyStore with user := [sampleUser] }) sampleOid sampleSignup =
      (.error ⟨400, "Email already registered"⟩,
       some { emptyStore with user := [sampleUser] }) :=
  ⟨(signup_email_uniqueness emptyStore sampleOid sampleSignup).2 rfl,
   (signup_email_uniqueness { emptyStore with user := [sampleUser] } sampleOid
      sampleSignup).1 (by decide)⟩

/-- C5: a successful patient signup (fresh email) appends a Patient document
with `user_id` the new user's id `U1` and `medical_record_number`
`"MRN-" ++ (last 6 of U1).toUpper`, and no doctor stub; a successful doctor
signup appends a Doctor document with null specialization and no patient
stub; any other role appends neither. -/
theorem signup_linked_profiles (st : Store) (newId : MongoOid) (p : SignupRequest)
    (hfresh : st.user.find? (fun u => u.email == p.email) = none) :
    (p.role = "patient" →
      ∃ st' : Store,
        signup (some st) newId p = (.ok (newId.hex, "Signup successful"), some st') ∧
        st'.patient = st.patient ++
          [{ user_id := newId.hex,
             medical_record_number := "MRN-" ++ (last6 newId.hex).toUpper }] ∧
        st'.doctor = st.doctor) ∧
    (p.role = "doctor" →
      ∃ st' : Store,
        signup (some st) newId p = (.ok (newId.hex, "Signup successful"), some st') ∧
        st'.doctor = st.doctor ++ [{ user_id := newId.hex, specialization := none }] ∧
        st'.patient = st.patient) ∧
    (p.role ≠ "patient" → p.role ≠ "doctor" →
      ∃ st' : Store,
        signup (some st) newId p = (.ok (newId.hex, "Signup successful"), some st') ∧
        st'.patient = st.patient ∧ st'.doctor = st.doctor) := by
  refine ⟨?_, ?_, ?_⟩
  · intro hrole
    refine ⟨_, signup_of_fresh_email st newId p hfresh, ?_, ?_⟩ <;> simp [hrole]
  · intro hrole
    refine ⟨_, signup_of_fresh_email st newId p hfresh, ?_, ?_⟩ <;> simp [hrole]
  · intro hpat hdoc
    refine ⟨_, signup_of_fresh_email st newId p hfresh, ?_, ?_⟩ <;> simp [hpat, hdoc]

/-- A concrete patient signup payload for witnesses. -/
def samplePatientSignup : SignupRequest :=
  { role := "patient", full_name := "Pat Example", email := "pat@example.com",
    password := "pw123456" }

/-- Witness for C5: a patient signup on the empty store creates the linked
Patient stub with the derived MRN and no doctor stub. -/
theorem signup_linked_profiles_witness :
    ∃ st' : Store,
      signup (some emptyStore) sampleOid samplePatientSignup =
        (.ok (sampleOid.hex, "Signup successful"), some st') ∧
      st'.patient = emptyStore.patient ++
        [{ user_id := sampleOid.hex,
           medical_record_number := "MRN-" ++ (last6 sampleOid.hex).toUpper }] ∧
      st'.doctor = emptyStore.doctor :=
  (signup_linked_profiles emptyStore sampleOid samplePatientSignup rfl).1 rfl

/-- C6: dispense always succeeds, persisting the Dispense document (with the
payload's `paid` flag, default false) and then folding the per-item stock
decrements over the line items in order, all other collections untouched;
a line item whose medicine id is absent, malformed, or matches no Medicine
is silently skipped, leaving every stock unchanged (no rollback of the
insert, no abort of later items); a line item that resolves decrements
exactly the matched Medicine's stock by its quantity and touches no other
document. -/
theorem dispense_spec (st : Store) (newId : MongoOid) (d : DispensePayload) :
    (∃ st' : Store,
      dispense (some st) newId d = (.ok newId.hex, some st') ∧
      st'.dispense = st.dispense ++
        [{ _id := newId, patient_id := d.patient_id, prescription_id := d.prescription_id,
           items := d.items, total := d.total, paid := d.paid }] ∧
      st'.medicine = d.items.foldl applyItem st.medicine ∧
      st'.user = st.user ∧ st'.patient = st.patient ∧ st'.doctor = st.doctor ∧
      st'.labtest = st.labtest) ∧
    (∀ (meds : List MedicineDoc) (item : DispenseItem),
      (∀ mid oid, item.medicine_id = some mid → objectIdOfString mid = some oid →
        ∀ m ∈ meds, m._id ≠ oid) →
      applyItem meds item = meds) ∧
    (∀ (pre post : List MedicineDoc) (m : MedicineDoc) (mid : String) (q : Int)
        (pr : Option Float),
      objectIdOfString mid = some m._id →
      (∀ x ∈ pre, x._id ≠ m._id) →
      applyItem (pre ++ m :: post)
          { medicine_id := some mid, quantity := some q, price := pr } =
        pre ++ { m with stock := m.stock - q } :: post) := by
  refine ⟨⟨{ st with
              dispense := st.dispense ++
                [{ _id := newId, patient_id := d.patient_id,
                   prescription_id := d.prescription_id, items := d.items,
                   total := d.total, paid := d.paid }],
              medicine := d.items.foldl applyItem st.medicine },
           rfl, rfl, rfl, rfl, rfl, rfl, rfl⟩, ?_, ?_⟩
  · intro meds item hsafe
    cases hmid : item.medicine_id with
    | none => simp [applyItem, hmid]
    | some mid =>
      cases hoid : objectIdOfString mid with
      | none => simp [applyItem, hmid, hoid]
      | some oid =>
        simp only [applyItem, hmid, hoid]
        exact decStockFirst_of_not_mem meds oid _ (hsafe mid oid hmid hoid)
  · intro pre post m mid q pr hoid hpre
    simp only [applyItem, hoid, Option.getD_some]
    exact decStockFirst_split pre post m m._id q hpre rfl

/-- A concrete medicine document for witnesses. -/
def sampleMedicine : MedicineDoc :=
  { _id := ⟨"aaaaaaaaaaaaaaaaaaaaaaaa"⟩, name := "Aspirin", stock := 10, price := 1.0,
    manufacturer := none, expiry_date := none }

/-- Witness for C6: a line item for the existing medicine with quantity 3
takes its stock from 10 to 7; a line item naming a non-existent medicine id
leaves the stock list untouched instead of failing. -/
theorem dispense_spec_witness :
    applyItem [sampleMedicine]
        { medicine_id := some "aaaaaaaaaaaaaaaaaaaaaaaa", quantity := some 3,
          price := none } =
      [{ sampleMedicine with stock := 7 }] ∧
    applyItem [sampleMedicine]
        { medicine_id := some "ffffffffffffffffffffffff", quantity := some 2,
          price := none } =
      [sampleMedicine] := by
  constructor
  · have h := (dispense_spec emptyStore ⟨"aaaaaaaaaaaaaaaaaaaaaaaa"⟩
        { patient_id := "p1", prescription_id := "rx1", items := [], total := 0.0,
          paid := false }).2.2 [] [] sampleMedicine "aaaaaaaaaaaaaaaaaaaaaaaa" 3 none
        (by decide) (by simp)
    simpa using h
  · exact (dispense_spec emptyStore ⟨"aaaaaaaaaaaaaaaaaaaaaaaa"⟩
        { patient_id := "p1", prescription_id := "rx1", items := [], total := 0.0,
          paid := false }).2.1 [sampleMedicine]
      { medicine_id := some "ffffffffffffffffffffffff", quantity := some 2, price := none }
      (by
        intro mid oid h1 h2 m hm
        injection h1 with h1
        subst h1
        rw [show objectIdOfString "ffffffffffffffffffffffff" =
              some ⟨"ffffffffffffffffffffffff"⟩ from by decide] at h2
        injection h2 with h2
        subst h2
        rw [List.mem_singleton] at hm
        subst hm
        decide)

/-- C7: uploading a result for the LabTest whose id matches `test_id` (here
the document with status "ordered") performs the one `$set` update: that
document's `status` becomes "completed" and its `result_pdf_url` the derived
non-null `/files/<name>` path, together, while every other field of the
document, every other labtest document, and every other collection are left
exactly as they were. -/
theorem upload_result_ordered_update (st : Store) (test_id filename : String)
    (oid : MongoOid) (pre post : List LabTestDoc) (t : LabTestDoc)
    (hparse : objectIdOfString test_id = some oid)
    (hsplit : st.labtest = pre ++ t :: post)
    (hpre : ∀ x ∈ pre, x._id ≠ oid)
    (hid : t._id = oid)
    (_hstatus : t.status = "ordered") :
    upload_result (some st) test_id filename =
      (.ok "Result uploaded",
       some { st with labtest :=
          pre ++ { t with status := "completed",
                          result_pdf_url := some ("/files/" ++ filename) } :: post }) := by
  simp only [upload_result, hparse]
  rw [hsplit, setResultFirst_split pre post t oid _ hpre hid]

/-- A concrete ordered lab test and its store, for witnesses. -/
def sampleLabTest : LabTestDoc :=
  { _id := ⟨"bbbbbbbbbbbbbbbbbbbbbbbb"⟩, patient_id := "p1", ordered_by := "d1",
    test_type := "cbc", status := "ordered", result_summary := none,
    result_pdf_url := none }

/-- The store holding exactly the sample ordered lab test. -/
def labStore : Store := { emptyStore with labtest := [sampleLabTest] }

/-- Witness for C7: uploading against the ordered sample test completes it and
sets the derived result path, leaving everything else unchanged. -/
theorem upload_result_ordered_update_witness :
    upload_result (some labStore) "bbbbbbbbbbbbbbbbbbbbbbbb" "report.pdf" =
      (.ok "Result uploaded",
       some { labStore with labtest :=
          [{ sampleLabTest with status := "completed",
                                result_pdf_url := some ("/files/" ++ "report.pdf") }] }) := by
  have h := upload_result_ordered_update labStore "bbbbbbbbbbbbbbbbbbbbbbbb" "report.pdf"
    ⟨"bbbbbbbbbbbbbbbbbbbbbbbb"⟩ [] [] sampleLabTest (by decide) rfl (by simp) rfl rfl
  simpa using h

/-- C10: an upload whose well-formed `test_id` matches no LabTest document
still returns the fixed success message and modifies nothing — the caller
cannot tell that no document was updated. -/
theorem upload_result_missing_test (st : Store) (test_id filename : String)
    (oid : MongoOid)
    (hparse : objectIdOfString test_id = some oid)
    (hnone : ∀ x ∈ st.labtest, x._id ≠ oid) :
    upload_result (some st) test_id filename = (.ok "Result uploaded", some st) := by
  simp only [upload_result, hparse]
  rw [setResultFirst_of_not_mem st.labtest oid _ hnone]

/-- Witness for C10: uploading against an id absent from the labtest
collection returns the success message and leaves the store untouched. -/
theorem upload_result_missing_test_witness :
    upload_result (some labStore) "cccccccccccccccccccccccc" "x.pdf" =
      (.ok "Result uploaded", some labStore) := by
  refine upload_result_missing_test labStore "cccccccccccccccccccccccc" "x.pdf"
    ⟨"cccccccccccccccccccccccc"⟩ (by decide) ?_
  intro x hx
  rw [show labStore.labtest = [sampleLabTest] from rfl, List.mem_singleton] at hx
  subst hx
  decide

/-- The token is not a well-formed JWT at all. -/
def tokenMalformed (t : Jwt) : Prop := ∃ raw, t = Jwt.malformed raw

/-- The token's signature was not produced with the service's key. -/
def signatureInvalid (t : Jwt) : Prop := ∃ c k, t = Jwt.signed c k ∧ k ≠ SECRET_KEY

/-- The token carries an `exp` claim that is not in the future. -/
def tokenExpired (t : Jwt) (now : Int) : Prop :=
  ∃ c k e, t = Jwt.signed c k ∧ c.exp = some e ∧ e ≤ now

/-- The token lacks the required `sub` claim. -/
def subjectMissing (t : Jwt) : Prop := ∃ c k, t = Jwt.signed c k ∧ c.sub = none

/-- The token's `sub` claim does not resolve to a stored user (malformed id
or no matching document). -/
def subjectUnresolved (users : List StoredUser) (t : Jwt) : Prop :=
  ∃ c k uid, t = Jwt.signed c k ∧ c.sub = some uid ∧ findUserByIdStr users uid = none

/-- Helper for C1: the case of a correctly signed, unexpired token, analyzed
over the `sub` claim and the user lookup. -/
theorem get_current_user_ok_key_aux (users : List StoredUser) (c : Claims) (now : Int)
    (hdec : jwt_decode (Jwt.signed c SECRET_KEY) SECRET_KEY now = .ok c)
    (hnexp : ∀ e, c.exp = some e → ¬ e ≤ now) :
    ((∃ e, get_current_user (some users) (some (Jwt.signed c SECRET_KEY)) now = .error e ∧
        e.status_code = 401) ↔
      ((some (Jwt.signed c SECRET_KEY) : Option Jwt) = none ∨
        ∃ t, (some (Jwt.signed c SECRET_KEY) : Option Jwt) = some t ∧
          (tokenMalformed t ∨ signatureInvalid t ∨ tokenExpired t now ∨
           subjectMissing t ∨ subjectUnresolved users t))) ∧
    (∀ u, get_current_user (some users) (some (Jwt.signed c SECRET_KEY)) now = .ok u →
      ∃ t c' k uid s, (some (Jwt.signed c SECRET_KEY) : Option Jwt) = some t ∧
        t = Jwt.signed c' k ∧ c'.sub = some uid ∧
        findUserByIdStr users uid = some s ∧ u = serializeUser s ∧ u._id = s._id.hex) := by
  cases hsub : c.sub with
  | none =>
    have hval : get_current_user (some users) (some (Jwt.signed c SECRET_KEY)) now =
        .error ⟨401, "Could not validate credentials"⟩ := by
      simp [get_current_user, hdec, hsub]
    refine ⟨⟨fun _ => Or.inr ⟨_, rfl,
        Or.inr (Or.inr (Or.inr (Or.inl ⟨c, SECRET_KEY, rfl, hsub⟩)))⟩,
      fun _ => ⟨_, hval, rfl⟩⟩, ?_⟩
    intro u hu
    rw [hval] at hu
    exact Except.noConfusion hu
  | some uid =>
    cases hfind : findUserByIdStr users uid with
    | none =>
      have hval : get_current_user (some users) (some (Jwt.signed c SECRET_KEY)) now =
          .error ⟨401, "Could not validate credentials"⟩ := by
        simp [get_current_user, hdec, hsub, hfind]
      refine ⟨⟨fun _ => Or.inr ⟨_, rfl,
          Or.inr (Or.inr (Or.inr (Or.inr ⟨c, SECRET_KEY, uid, rfl, hsub, hfind⟩)))⟩,
        fun _ => ⟨_, hval, rfl⟩⟩, ?_⟩
      intro u hu
      rw [hval] at hu
      exact Except.noConfusion hu
    | some s =>
      have hval : get_current_user (some users) (some (Jwt.signed c SECRET_KEY)) now =
          .ok (serializeUser s) := by
        simp [get_current_user, hdec, hsub, hfind]
      constructor
      · constructor
        · rintro ⟨e', he', _⟩
          rw [hval] at he'
          exact Except.noConfusion he'
        · rintro (hnone | ⟨t, hts, hcond⟩)
          · exact Option.noConfusion hnone
          · injection hts with hts
            subst hts
            rcases hcond with ⟨raw, hraw⟩ | ⟨c', k', heq, hk'⟩ | ⟨c', k', e', heq, hexp', he'⟩ |
              ⟨c', k', heq, hsub'⟩ | ⟨c', k', uid', heq, hsub', hfind'⟩
            · exact Jwt.noConfusion hraw
            · injection heq with h1 h2
              exact (hk' h2.symm).elim
            · injection heq with h1 h2
              subst h1
              exact (hnexp e' hexp' he').elim
            · injection heq with h1 h2
              subst h1
              rw [hsub] at hsub'
              exact Option.noConfusion hsub'
            · injection heq with h1 h2
              subst h1
              rw [hsub] at hsub'
              injection hsub' with h3
              subst h3
              rw [hfind] at hfind'
              exact Option.noConfusion hfind'
      · intro u hu
        rw [hval] at hu
        injection hu with hu
        subst hu
        exact ⟨_, c, SECRET_KEY, uid, s, rfl, rfl, hsub, hfind, rfl, rfl⟩

/-- C1: a protected-route request is rejected with 401 — and the handler is
never reached — exactly when the bearer token is missing, malformed, wrongly
signed, expired, lacking the `sub` claim, or carrying a `sub` that resolves
to no stored user; on success the resolved user document is returned with
its id serialized to the plain hex string. -/
theorem get_current_user_spec (users : List StoredUser) (token : Option Jwt) (now : Int) :
    ((∃ e, get_current_user (some users) token now = .error e ∧ e.status_code = 401) ↔
      (token = none ∨ ∃ t, token = some t ∧
        (tokenMalformed t ∨ signatureInvalid t ∨ tokenExpired t now ∨
         subjectMissing t ∨ subjectUnresolved users t))) ∧
    (∀ u, get_current_user (some users) token now = .ok u →
      ∃ t c k uid s, token = some t ∧ t = Jwt.signed c k ∧ c.sub = some uid ∧
        findUserByIdStr users uid = some s ∧ u = serializeUser s ∧ u._id = s._id.hex) := by
  cases token with
  | none =>
    refine ⟨⟨fun _ => Or.inl rfl, fun _ => ⟨⟨401, "Not authenticated"⟩, rfl, rfl⟩⟩, ?_⟩
    intro u hu
    exact Except.noConfusion hu
  | some t =>
    cases t with
    | malformed raw =>
      refine ⟨⟨fun _ => Or.inr ⟨_, rfl, Or.inl ⟨raw, rfl⟩⟩,
        fun _ => ⟨⟨401, "Could not validate credentials"⟩, rfl, rfl⟩⟩, ?_⟩
      intro u hu
      exact Except.noConfusion hu
    | signed c k =>
      by_cases hk : k = SECRET_KEY
      · subst hk
        by_cases hexp : ∀ e, c.exp = some e → ¬ e ≤ now
        · have hdec : jwt_decode (Jwt.signed c SECRET_KEY) SECRET_KEY now = .ok c := by
            cases hce : c.exp with
            | none => simp [jwt_decode, hce]
            | some e => simp [jwt_decode, hce, hexp e hce]
          exact get_current_user_ok_key_aux users c now hdec hexp
        · push_neg at hexp
          obtain ⟨e, hce, he⟩ := hexp
          have hdec : jwt_decode (Jwt.signed c SECRET_KEY) SECRET_KEY now =
              .error .expiredSignature := by
            simp [jwt_decode, hce, he]
          have hval : get_current_user (some users) (some (Jwt.signed c SECRET_KEY)) now =
              .error ⟨401, "Could not validate credentials"⟩ := by
            simp [get_current_user, hdec]
          refine ⟨⟨fun _ => Or.inr ⟨_, rfl,
              Or.inr (Or.inr (Or.inl ⟨c, SECRET_KEY, e, rfl, hce, he⟩))⟩,
            fun _ => ⟨_, hval, rfl⟩⟩, ?_⟩
          intro u hu
          rw [hval] at hu
          exact Except.noConfusion hu
      · have hdec : jwt_decode (Jwt.signed c k) SECRET_KEY now =
            .error .invalidSignature := by
          simp [jwt_decode, hk]
        have hval : get_current_user (some users) (some (Jwt.signed c k)) now =
            .error ⟨401, "Could not validate credentials"⟩ := by
          simp [get_current_user, hdec]
        refine ⟨⟨fun _ => Or.inr ⟨_, rfl, Or.inr (Or.inl ⟨c, k, rfl, hk⟩)⟩,
          fun _ => ⟨_, hval, rfl⟩⟩, ?_⟩
        intro u hu
        rw [hval] at hu
        exact Except.noConfusion hu

/-- Witness for C1: with no bearer token the middleware rejects with 401. -/
theorem get_current_user_spec_witness :
    ∃ e, get_current_user (some []) none 0 = .error e ∧ e.status_code = 401 :=
  (get_current_user_spec [] none 0).1.mpr (Or.inl rfl)

end Hospital
